import Mathlib

/-!
Formal model of the yui_core memory subsystem: the SQLite-backed
`DatabaseManager` (src/memory/database.py) and the `MemoryManager`
orchestrator (src/memory/memory_manager.py), as a shallow embedding.

Modelling conventions:
* The SQLite database is a record of three tables (lists of rows in
  insertion order) plus the AUTOINCREMENT counters.
* Timestamps (`datetime.now().isoformat()` and SQL `CURRENT_TIMESTAMP`)
  are naturals supplied explicitly by the caller as a `now` argument;
  real wall-clock time is a special case.
* `ORDER BY timestamp DESC` is modelled by `List.insertionSort` with the
  timestamp-descending relation, `LIMIT n` by `List.take n`.
* Calls into the ChromaDB vector collection may raise; each such call
  site takes an `Except`-valued outcome argument standing for the
  behaviour of the external call, and the embedding reproduces the
  `try`/`except` structure of the Python code on that outcome.
-/

/-- A row of the `conversations` table. -/
structure ConvRow where
  id : Nat
  session_id : String
  user_name : String
  personality : String
  role : String
  content : String
  timestamp : Nat
  emotion : Option String
  created_at : Nat
  deriving Repr, DecidableEq

/-- A row of the `sessions` table (`session_id` carries a UNIQUE constraint). -/
structure SessionRow where
  id : Nat
  session_id : String
  user_name : String
  personality : String
  started_at : Nat
  ended_at : Option Nat
  message_count : Nat
  deriving Repr, DecidableEq

/-- A row of the `user_profiles` table (`user_name` carries a UNIQUE constraint). -/
structure ProfileRow where
  id : Nat
  user_name : String
  preferences : String
  created_at : Nat
  last_seen : Option Nat
  deriving Repr, DecidableEq

/-- The SQLite database state: three tables in row insertion order, plus
the next AUTOINCREMENT id of each table. -/
structure DB where
  conversations : List ConvRow
  sessions : List SessionRow
  user_profiles : List ProfileRow
  next_conv_id : Nat
  next_session_id : Nat
  next_profile_id : Nat
  deriving Repr, DecidableEq

namespace DatabaseManager

/-- `_create_tables` on a fresh database file: all three tables exist and are
empty, AUTOINCREMENT counters start at 1. -/
def emptyDB : DB :=
  { conversations := [], sessions := [], user_profiles := [],
    next_conv_id := 1, next_session_id := 1, next_profile_id := 1 }

/-- `DatabaseManager.save_message`: INSERT a `conversations` row, then
`UPDATE sessions SET message_count = message_count + 1 WHERE session_id = ?`,
then commit. The UPDATE bumps every `sessions` row whose `session_id`
matches (zero rows when the session does not exist). -/
def save_message (db : DB) (now : Nat)
    (session_id user_name personality role content : String)
    (emotion : Option String) : DB :=
  { db with
    conversations := db.conversations ++
      [{ id := db.next_conv_id, session_id := session_id, user_name := user_name,
         personality := personality, role := role, content := content,
         timestamp := now, emotion := emotion, created_at := now }],
    next_conv_id := db.next_conv_id + 1,
    sessions := db.sessions.map fun s =>
      if s.session_id == session_id then
        { s with message_count := s.message_count + 1 }
      else s }

/-- Projection of a `conversations` row onto the columns selected by
`get_session_history` (`role, content, timestamp, emotion`). -/
structure HistRow where
  role : String
  content : String
  timestamp : Nat
  emotion : Option String
  deriving Repr, DecidableEq

/-- Timestamp-descending order on history rows (`ORDER BY timestamp DESC`). -/
def histDesc (a b : HistRow) : Prop := b.timestamp ≤ a.timestamp

instance : DecidableRel histDesc := fun a b => Nat.decLe b.timestamp a.timestamp

instance : IsTotal HistRow histDesc := ⟨fun a b => Nat.le_total b.timestamp a.timestamp⟩

instance : IsTrans HistRow histDesc := ⟨fun _ _ _ hab hbc => Nat.le_trans hbc hab⟩

/-- `DatabaseManager.get_session_history`: SELECT the session's rows ordered
`timestamp DESC` with `LIMIT limit`, then reverse the fetched rows in Python
to return chronological (oldest-first) order. -/
def get_session_history (db : DB) (session_id : String) (limit : Nat) :
    List HistRow :=
  let rows := (db.conversations.filter fun c => c.session_id == session_id).map
    fun c => ({ role := c.role, content := c.content, timestamp := c.timestamp,
                emotion := c.emotion } : HistRow)
  ((List.insertionSort histDesc rows).take limit).reverse

/-- Projection of a `conversations` row onto the columns selected by
`search_conversations` (`session_id, personality, role, content, timestamp`). -/
structure SearchRow where
  session_id : String
  personality : String
  role : String
  content : String
  timestamp : Nat
  deriving Repr, DecidableEq

/-- Timestamp-descending order on search rows (`ORDER BY timestamp DESC`). -/
def searchDesc (a b : SearchRow) : Prop := b.timestamp ≤ a.timestamp

instance : DecidableRel searchDesc := fun a b => Nat.decLe b.timestamp a.timestamp

instance : IsTotal SearchRow searchDesc := ⟨fun a b => Nat.le_total b.timestamp a.timestamp⟩

instance : IsTrans SearchRow searchDesc := ⟨fun _ _ _ hab hbc => Nat.le_trans hbc hab⟩

/-- SQL `content LIKE '%keyword%'`: substring containment, case-insensitive
(SQLite's LIKE folds ASCII case). -/
def likeContains (content keyword : String) : Bool :=
  decide (keyword.toLower.data <:+: content.toLower.data)

/-- `DatabaseManager.search_conversations`: keyword search over the user's
rows, ordered `timestamp DESC` (newest first) with `LIMIT limit`. -/
def search_conversations (db : DB) (user_name keyword : String) (limit : Nat) :
    List SearchRow :=
  let rows := (db.conversations.filter fun c =>
      c.user_name == user_name && likeContains c.content keyword).map
    fun c => ({ session_id := c.session_id, personality := c.personality,
                role := c.role, content := c.content,
                timestamp := c.timestamp } : SearchRow)
  (List.insertionSort searchDesc rows).take limit

/-- `DatabaseManager.create_session`: INSERT a `sessions` row; the UNIQUE
constraint on `session_id` makes a duplicate INSERT raise
`sqlite3.IntegrityError`, which the code catches and ignores (`pass`). -/
def create_session (db : DB) (now : Nat)
    (session_id user_name personality : String) : DB :=
  if db.sessions.any fun s => s.session_id == session_id then db
  else
    { db with
      sessions := db.sessions ++
        [{ id := db.next_session_id, session_id := session_id,
           user_name := user_name, personality := personality,
           started_at := now, ended_at := none, message_count := 0 }],
      next_session_id := db.next_session_id + 1 }

/-- `DatabaseManager.end_session`:
`UPDATE sessions SET ended_at = CURRENT_TIMESTAMP WHERE session_id = ?`.
The UPDATE is unconditional on `ended_at`: it rewrites the end timestamp of
every matching row, whether or not one was already set. -/
def end_session (db : DB) (now : Nat) (session_id : String) : DB :=
  { db with
    sessions := db.sessions.map fun s =>
      if s.session_id == session_id then { s with ended_at := some now } else s }

/-- Observation: the first `sessions` row with the given `session_id`
(the row `SELECT ... WHERE session_id = ?` returns; unique by constraint). -/
def lookupSession (db : DB) (session_id : String) : Option SessionRow :=
  db.sessions.find? fun s => s.session_id == session_id

/-- The record returned by `get_stats`. -/
structure Stats where
  total_messages : Nat
  total_sessions : Nat
  favorite_personality : String
  deriving Repr, DecidableEq

/-- SQL `GROUP BY personality` with `COUNT(*)`: one (personality, count) pair
per distinct personality, groups in first-encountered row order. -/
def personalityCounts (ps : List String) : List (String × Nat) :=
  ps.eraseDups.map fun p => (p, ps.count p)

/-- SQL `ORDER BY count DESC LIMIT 1` over the grouped rows: the group with
the greatest count, first-encountered group winning ties (a deterministic
refinement of SQLite's unspecified tie order). -/
def topCount : List (String × Nat) → Option (String × Nat)
  | [] => none
  | pc :: rest =>
    match topCount rest with
    | none => some pc
    | some best => if best.2 > pc.2 then some best else some pc

/-- `DatabaseManager.get_stats`: total message count, total session count, and
the personality with the highest session count (`'None'` when the user has no
sessions). -/
def get_stats (db : DB) (user_name : String) : Stats :=
  { total_messages := (db.conversations.filter fun c => c.user_name == user_name).length,
    total_sessions := (db.sessions.filter fun s => s.user_name == user_name).length,
    favorite_personality :=
      match topCount (personalityCounts
          ((db.sessions.filter fun s => s.user_name == user_name).map
            fun s => s.personality)) with
      | some pc => pc.1
      | none => "None" }

end DatabaseManager

namespace MemoryManager

/-- The `MemoryManager`'s own state: the bound user, the current session id,
and the construction-time vector-availability flag. -/
structure MM where
  user_name : String
  session_id : String
  vector_enabled : Bool
  deriving Repr, DecidableEq

/-- A Memory Fragment in the user's ChromaDB collection, as written by
`collection.add` in `MemoryManager.save_message`. -/
structure Fragment where
  frag_id : String
  content : String
  session_id : String
  personality : String
  timestamp : Nat
  emotion : String
  deriving Repr, DecidableEq

/-- The per-user vector collection: fragments in insertion order. -/
abbrev VectorStore := List Fragment

/-- `MemoryManager.save_message`: always write to the SQL database under the
current session id; then, only when `vector_enabled` and `role == "user"`,
attempt `collection.add` inside a `try`/`except` — `vecOutcome` is the
behaviour of that external call, and a raised error is caught and logged,
leaving the vector store unchanged. Returns the new (database, vector store)
pair. -/
def save_message (mm : MM) (db : DB) (vec : VectorStore) (now : Nat)
    (role content personality : String) (emotion : Option String)
    (vecOutcome : Except String Unit) : DB × VectorStore :=
  let db2 := DatabaseManager.save_message db now mm.session_id mm.user_name
    personality role content emotion
  if mm.vector_enabled && (role == "user") then
    match vecOutcome with
    | Except.ok _ =>
      (db2, vec ++
        [{ frag_id := mm.session_id ++ "_" ++ toString now, content := content,
           session_id := mm.session_id, personality := personality,
           timestamp := now, emotion := emotion.getD "neutral" }])
    | Except.error _ => (db2, vec)
  else (db2, vec)

/-- Metadata attached to one vector query hit. -/
structure VecMeta where
  session_id : Option String
  personality : Option String
  timestamp : Option String
  emotion : Option String
  deriving Repr, DecidableEq

/-- The parallel-array result of `collection.query` (the first row of
`results['documents']` and `results['metadatas']`). -/
structure QueryResult where
  documents : List String
  metadatas : List VecMeta
  deriving Repr, DecidableEq

/-- A memory dict assembled by `search_semantic_memory` from a vector hit. -/
structure Memory where
  content : String
  session_id : Option String
  personality : Option String
  timestamp : Option String
  emotion : Option String
  deriving Repr, DecidableEq

/-- The assembly loop of `search_semantic_memory`: pair each returned
document with its metadata by position (missing metadata becomes an
all-`none` dict via `.get`-with-default). -/
def buildMemories (r : QueryResult) : List Memory :=
  (List.range r.documents.length).filterMap fun i =>
    (r.documents.get? i).map fun doc =>
      let md := (r.metadatas.get? i).getD
        { session_id := none, personality := none, timestamp := none, emotion := none }
      { content := doc, session_id := md.session_id, personality := md.personality,
        timestamp := md.timestamp, emotion := md.emotion }

/-- `MemoryManager.search_semantic_memory`: with the vector subsystem
disabled, go straight to `search_conversations`; otherwise attempt the vector
query (`vecOutcome` is the behaviour of that external call) and on any raised
error fall back to `search_conversations`. The Python function returns two
different dict shapes, modelled as a sum: `Sum.inl` for vector memories,
`Sum.inr` for keyword-search rows. -/
def search_semantic_memory (mm : MM) (db : DB) (query : String) (n_results : Nat)
    (vecOutcome : Except String QueryResult) :
    Sum (List Memory) (List DatabaseManager.SearchRow) :=
  if !mm.vector_enabled then
    Sum.inr (DatabaseManager.search_conversations db mm.user_name query n_results)
  else
    match vecOutcome with
    | Except.ok r => Sum.inl (buildMemories r)
    | Except.error _ =>
      Sum.inr (DatabaseManager.search_conversations db mm.user_name query n_results)

/-- `MemoryManager.clear_session_memory`: replace the local session id with a
freshly minted uuid (`fresh_id` models the nondeterministic `uuid.uuid4()`).
The database is threaded through unchanged to express that the method issues
no database operation at all. -/
def clear_session_memory (mm : MM) (db : DB) (fresh_id : String) : MM × DB :=
  ({ mm with session_id := fresh_id }, db)

end MemoryManager

/-- The arguments of one `DatabaseManager.save_message` call, used to state
properties of arbitrary interleavings of save calls. -/
structure SaveOp where
  now : Nat
  session_id : String
  user_name : String
  personality : String
  role : String
  content : String
  emotion : Option String
  deriving Repr, DecidableEq

/-- Apply a sequence of `save_message` calls to the database in order. -/
def applySaves (db : DB) (ops : List SaveOp) : DB :=
  ops.foldl (fun d o =>
    DatabaseManager.save_message d o.now o.session_id o.user_name o.personality
      o.role o.content o.emotion) db

/-! Concrete states used by the witness theorems. -/

/-- A database holding one freshly created session `"s"`. -/
def dbC1 : DB := DatabaseManager.create_session DatabaseManager.emptyDB 0 "s" "u" "yui"

/-- The `sessions` row of `dbC1`. -/
def rowC1 : SessionRow :=
  { id := 1, session_id := "s", user_name := "u", personality := "yui",
    started_at := 0, ended_at := none, message_count := 0 }

/-- Three save calls: two target session `"s"`, one an interleaved session. -/
def opsC1 : List SaveOp :=
  [{ now := 1, session_id := "s", user_name := "u", personality := "yui",
     role := "user", content := "hello", emotion := none },
   { now := 2, session_id := "other", user_name := "u", personality := "yui",
     role := "user", content := "hi", emotion := none },
   { now := 3, session_id := "s", user_name := "u", personality := "yui",
     role := "assistant", content := "hey", emotion := none }]

/-- A database with two messages in session `"s"` (timestamps 1 and 2). -/
def dbC2 : DB :=
  DatabaseManager.save_message
    (DatabaseManager.save_message DatabaseManager.emptyDB 1 "s" "u" "yui" "user" "hello" none)
    2 "s" "u" "yui" "assistant" "hi" none

/-- A database with one user message containing the word pizza. -/
def dbC3 : DB :=
  DatabaseManager.save_message DatabaseManager.emptyDB 1 "s" "u" "yui" "user" "I love pizza" none

/-- A manager state with the vector subsystem enabled. -/
def mmC3 : MemoryManager.MM := { user_name := "u", session_id := "s", vector_enabled := true }

/-- A database whose session `"s"` has already ended (at time 5). -/
def dbC7 : DB :=
  DatabaseManager.end_session (DatabaseManager.create_session DatabaseManager.emptyDB 0 "s" "u" "yui") 5 "s"

/-- Alice's three sessions with personalities yui, yui, friday. -/
def dbC9 : DB :=
  DatabaseManager.create_session
    (DatabaseManager.create_session
      (DatabaseManager.create_session DatabaseManager.emptyDB 0 "s1" "Alice" "yui")
      1 "s2" "Alice" "yui")
    2 "s3" "Alice" "friday"

/-- A database holding only session `"t"` — session `"s"` does not exist. -/
def dbC10 : DB := DatabaseManager.create_session DatabaseManager.emptyDB 0 "t" "u" "yui"

/-! ## Helper lemmas -/

/-- `find?` over a map that preserves `session_id` commutes with the map. -/
theorem find?_sessionMap {f : SessionRow → SessionRow}
    (hf : ∀ s, (f s).session_id = s.session_id) (l : List SessionRow) (t : String) :
    (l.map f).find? (fun s => s.session_id == t) =
      (l.find? fun s => s.session_id == t).map f := by
  rw [List.find?_map]
  have hp : ((fun s : SessionRow => s.session_id == t) ∘ f) =
      fun s : SessionRow => s.session_id == t := by
    funext s
    simp [Function.comp, hf s]
  rw [hp]

/-- Effect of one `save_message` call on session lookup: the looked-up row is
bumped exactly when its `session_id` matches the save's target. -/
theorem lookupSession_save_message (db : DB) (now : Nat)
    (sid u p role content : String) (e : Option String) (t : String) :
    DatabaseManager.lookupSession
        (DatabaseManager.save_message db now sid u p role content e) t =
      (DatabaseManager.lookupSession db t).map fun s =>
        if s.session_id == sid then { s with message_count := s.message_count + 1 }
        else s := by
  unfold DatabaseManager.lookupSession DatabaseManager.save_message
  exact find?_sessionMap (fun s => by split <;> rfl) db.sessions t

/-- Effect of a sequence of `save_message` calls on a session's row: its
message count grows by the number of calls targeting it. -/
theorem lookupSession_applySaves (ops : List SaveOp) (db : DB) (t : String)
    (r : SessionRow) (h : DatabaseManager.lookupSession db t = some r) :
    DatabaseManager.lookupSession (applySaves db ops) t =
      some { r with message_count :=
        r.message_count + ops.countP fun o => o.session_id == t } := by
  induction ops generalizing db r with
  | nil =>
    simpa [applySaves] using h
  | cons o rest ih =>
    have hrt : r.session_id = t := by
      have hp := List.find?_some h
      exact beq_iff_eq.mp hp
    have hstep : applySaves db (o :: rest) =
        applySaves (DatabaseManager.save_message db o.now o.session_id o.user_name
          o.personality o.role o.content o.emotion) rest := rfl
    rw [hstep]
    by_cases hc : o.session_id = t
    · have hb : (r.session_id == o.session_id) = true := beq_iff_eq.mpr (by rw [hrt, hc])
      have h1 : DatabaseManager.lookupSession
          (DatabaseManager.save_message db o.now o.session_id o.user_name
            o.personality o.role o.content o.emotion) t =
          some { r with message_count := r.message_count + 1 } := by
        rw [lookupSession_save_message, h]
        simp [hb]
        exact fun hne => absurd (beq_iff_eq.mp hb) hne
      rw [ih _ _ h1]
      have hcount : ((o :: rest).countP fun x => x.session_id == t) =
          (rest.countP fun x => x.session_id == t) + 1 := by
        rw [List.countP_cons]
        simp [hc]
      rw [hcount]
      simp only [Option.some.injEq]
      congr 1
      omega
    · have hb : (r.session_id == o.session_id) = false := by
        rw [beq_eq_false_iff_ne, hrt]
        exact fun hh => hc hh.symm
      have h1 : DatabaseManager.lookupSession
          (DatabaseManager.save_message db o.now o.session_id o.user_name
            o.personality o.role o.content o.emotion) t =
          some r := by
        rw [lookupSession_save_message, h]
        simp [hb]
        exact fun heq => absurd heq (beq_eq_false_iff_ne.mp hb)
      rw [ih _ _ h1]
      have hcount : ((o :: rest).countP fun x => x.session_id == t) =
          rest.countP fun x => x.session_id == t := by
        rw [List.countP_cons]
        simp [hc]
      rw [hcount]

/-- The history returned by `get_session_history` is sorted by non-decreasing
timestamp. -/
theorem get_session_history_sorted (db : DB) (sid : String) (limit : Nat) :
    List.Sorted (fun a b : DatabaseManager.HistRow => a.timestamp ≤ b.timestamp)
      (DatabaseManager.get_session_history db sid limit) := by
  simp only [DatabaseManager.get_session_history]
  have h1 : List.Pairwise DatabaseManager.histDesc
      ((List.insertionSort DatabaseManager.histDesc
        ((db.conversations.filter fun c => c.session_id == sid).map
          fun c => ({ role := c.role, content := c.content, timestamp := c.timestamp,
                      emotion := c.emotion } : DatabaseManager.HistRow))).take limit) :=
    List.Pairwise.sublist (List.take_sublist _ _)
      (List.sorted_insertionSort DatabaseManager.histDesc _)
  exact List.pairwise_reverse.mpr h1

/-- The rows returned by `search_conversations` are sorted newest-first. -/
theorem search_conversations_sorted (db : DB) (u kw : String) (limit : Nat) :
    List.Sorted DatabaseManager.searchDesc
      (DatabaseManager.search_conversations db u kw limit) := by
  simp only [DatabaseManager.search_conversations]
  exact List.Pairwise.sublist (List.take_sublist _ _)
    (List.sorted_insertionSort DatabaseManager.searchDesc _)

/-! ## Claim theorems -/

/-- C1: after N `save_message` calls targeting a session (with any number of
interleaved save calls on other sessions), that session's `message_count`
equals N, where N is the number of calls in the sequence whose target is that
session and the session row started at count 0. -/
theorem save_message_counter_correct (db : DB) (ops : List SaveOp) (t : String)
    (r : SessionRow) (h : DatabaseManager.lookupSession db t = some r)
    (h0 : r.message_count = 0) :
    (DatabaseManager.lookupSession (applySaves db ops) t).map (fun s => s.message_count) =
      some (ops.countP fun o => o.session_id == t) := by
  rw [lookupSession_applySaves ops db t r h]
  simp [h0]

/-- Witness for C1: in `dbC1` the freshly created session `"s"` has count 0;
after the three saves of `opsC1` (two targeting `"s"`) its count is 2. -/
theorem save_message_counter_correct_witness :
    (DatabaseManager.lookupSession (applySaves dbC1 opsC1) "s").map
        (fun s => s.message_count) = some 2 := by
  have h := save_message_counter_correct dbC1 opsC1 "s" rowC1 (by decide) (by decide)
  simpa using h

/-- C2: `get_session_history` returns messages in chronological order — for
all positions i < j the timestamp at i is at most the timestamp at j — and
returns the empty sequence when the session has no messages. -/
theorem get_session_history_chronological (db : DB) (sid : String) (limit : Nat) :
    (∀ i j : Fin (DatabaseManager.get_session_history db sid limit).length,
        (i : Nat) < (j : Nat) →
        ((DatabaseManager.get_session_history db sid limit).get i).timestamp ≤
          ((DatabaseManager.get_session_history db sid limit).get j).timestamp) ∧
      ((db.conversations.filter fun c => c.session_id == sid) = [] →
        DatabaseManager.get_session_history db sid limit = []) := by
  constructor
  · intro i j hij
    exact (get_session_history_sorted db sid limit).rel_get_of_lt hij
  · intro h
    simp [DatabaseManager.get_session_history, h, List.insertionSort]

/-- Witness for C2: on `dbC2` the two returned rows of session `"s"` are in
timestamp order, and an unknown session id yields the empty list. -/
theorem get_session_history_chronological_witness :
    ((DatabaseManager.get_session_history dbC2 "s" 50).get ⟨0, by decide⟩).timestamp ≤
        ((DatabaseManager.get_session_history dbC2 "s" 50).get ⟨1, by decide⟩).timestamp ∧
      DatabaseManager.get_session_history dbC2 "zz" 50 = [] :=
  ⟨(get_session_history_chronological dbC2 "s" 50).1 ⟨0, by decide⟩ ⟨1, by decide⟩
      (by decide),
   (get_session_history_chronological dbC2 "zz" 50).2 (by decide)⟩

/-- C3: when the vector subsystem is disabled or the vector query call fails,
`search_semantic_memory` returns (never raises) exactly the keyword-search
results of `search_conversations` for the same user, which are ordered
newest-first. -/
theorem search_semantic_memory_degrades (mm : MemoryManager.MM) (db : DB)
    (query : String) (n : Nat) (vecOutcome : Except String MemoryManager.QueryResult)
    (h : mm.vector_enabled = false ∨ ∃ e, vecOutcome = Except.error e) :
    MemoryManager.search_semantic_memory mm db query n vecOutcome =
        Sum.inr (DatabaseManager.search_conversations db mm.user_name query n) ∧
      List.Sorted DatabaseManager.searchDesc
        (DatabaseManager.search_conversations db mm.user_name query n) := by
  refine ⟨?_, search_conversations_sorted db mm.user_name query n⟩
  rcases h with h | ⟨e, rfl⟩
  · simp [MemoryManager.search_semantic_memory, h]
  · cases hv : mm.vector_enabled <;>
      simp [MemoryManager.search_semantic_memory, hv]

/-- Witness for C3: with the vector subsystem enabled but the query raising,
the fallback on `dbC3` is returned. -/
theorem search_semantic_memory_degrades_witness :
    MemoryManager.search_semantic_memory mmC3 dbC3 "pizza" 5 (Except.error "boom") =
        Sum.inr (DatabaseManager.search_conversations dbC3 mmC3.user_name "pizza" 5) ∧
      List.Sorted DatabaseManager.searchDesc
        (DatabaseManager.search_conversations dbC3 mmC3.user_name "pizza" 5) :=
  search_semantic_memory_degrades mmC3 dbC3 "pizza" 5 (Except.error "boom")
    (Or.inr ⟨"boom", rfl⟩)

/-- C5: when only the vector write fails, `MemoryManager.save_message` still
returns (no exception propagates) and the relational database it returns is
exactly the result of the `DatabaseManager.save_message` write — in
particular the message row is present in `conversations`. -/
theorem save_message_relational_write_independent (mm : MemoryManager.MM)
    (db : DB) (vec : MemoryManager.VectorStore) (now : Nat)
    (role content personality : String) (emotion : Option String) (e : String) :
    (MemoryManager.save_message mm db vec now role content personality emotion
        (Except.error e)).1 =
        DatabaseManager.save_message db now mm.session_id mm.user_name personality
          role content emotion ∧
      ∃ c ∈ (MemoryManager.save_message mm db vec now role content personality emotion
          (Except.error e)).1.conversations,
        c.session_id = mm.session_id ∧ c.role = role ∧ c.content = content := by
  constructor
  · unfold MemoryManager.save_message
    split <;> rfl
  · refine ⟨{ id := db.next_conv_id, session_id := mm.session_id,
              user_name := mm.user_name, personality := personality, role := role,
              content := content, timestamp := now, emotion := emotion,
              created_at := now }, ?_, rfl, rfl, rfl⟩
    unfold MemoryManager.save_message
    split <;>
      · unfold DatabaseManager.save_message
        simp

/-- C6: a `save_message` call with a non-user role (e.g. an assistant reply)
never adds a fragment to the vector store. -/
theorem save_message_never_embeds_non_user (mm : MemoryManager.MM) (db : DB)
    (vec : MemoryManager.VectorStore) (now : Nat)
    (role content personality : String) (emotion : Option String)
    (vecOutcome : Except String Unit) (h : role ≠ "user") :
    (MemoryManager.save_message mm db vec now role content personality emotion
      vecOutcome).2 = vec := by
  have hb : (role == "user") = false := beq_eq_false_iff_ne.mpr h
  unfold MemoryManager.save_message
  simp [hb]

/-- Witness for C6: saving an assistant reply leaves the vector store empty. -/
theorem save_message_never_embeds_non_user_witness :
    (MemoryManager.save_message mmC3 dbC3 [] 7 "assistant" "hello" "yui" none
      (Except.ok ())).2 = [] :=
  save_message_never_embeds_non_user mmC3 dbC3 [] 7 "assistant" "hello" "yui" none
    (Except.ok ()) (by decide)

/-- C8: `clear_session_memory` replaces the local session id with the freshly
minted one and leaves the manager's user and every table of the relational
store untouched. -/
theorem clear_session_memory_frame (mm : MemoryManager.MM) (db : DB)
    (fresh_id : String) :
    (MemoryManager.clear_session_memory mm db fresh_id).1.session_id = fresh_id ∧
      (MemoryManager.clear_session_memory mm db fresh_id).1.user_name = mm.user_name ∧
      (MemoryManager.clear_session_memory mm db fresh_id).2.conversations =
        db.conversations ∧
      (MemoryManager.clear_session_memory mm db fresh_id).2.sessions = db.sessions ∧
      (MemoryManager.clear_session_memory mm db fresh_id).2.user_profiles =
        db.user_profiles :=
  ⟨rfl, rfl, rfl, rfl, rfl⟩

/-- C4: `create_session` is idempotent — a second call with the same session
id is silently ignored (the state is unchanged), and starting from a state
with no such session, two calls leave exactly one matching row. -/
theorem create_session_idempotent (db : DB) (now now2 : Nat)
    (sid u p u2 p2 : String) :
    DatabaseManager.create_session (DatabaseManager.create_session db now sid u p)
        now2 sid u2 p2 =
        DatabaseManager.create_session db now sid u p ∧
      ((db.sessions.countP fun s => s.session_id == sid) = 0 →
        ((DatabaseManager.create_session (DatabaseManager.create_session db now sid u p)
            now2 sid u2 p2).sessions.countP fun s => s.session_id == sid) = 1) := by
  by_cases hb : (db.sessions.any fun s => s.session_id == sid) = true
  · constructor
    · simp [DatabaseManager.create_session, hb]
    · intro h0
      exfalso
      rcases List.any_eq_true.mp hb with ⟨s, hs, hp⟩
      exact (List.countP_eq_zero.mp h0) s hs hp
  · have hb2 : (db.sessions.any fun s => s.session_id == sid) = false := by
      simpa using hb
    constructor
    · simp [DatabaseManager.create_session, hb2, List.any_append]
    · intro h0
      simp [DatabaseManager.create_session, hb2, List.any_append,
        List.countP_append, List.countP_cons, h0]

/-- Witness for C4: creating session `"s"` twice on the empty database leaves
the state of the first call and exactly one matching row. -/
theorem create_session_idempotent_witness :
    DatabaseManager.create_session
        (DatabaseManager.create_session DatabaseManager.emptyDB 0 "s" "u" "yui")
        1 "s" "u" "yui" =
        DatabaseManager.create_session DatabaseManager.emptyDB 0 "s" "u" "yui" ∧
      ((DatabaseManager.create_session
          (DatabaseManager.create_session DatabaseManager.emptyDB 0 "s" "u" "yui")
          1 "s" "u" "yui").sessions.countP fun s => s.session_id == "s") = 1 :=
  ⟨(create_session_idempotent DatabaseManager.emptyDB 0 1 "s" "u" "yui" "u" "yui").1,
   (create_session_idempotent DatabaseManager.emptyDB 0 1 "s" "u" "yui" "u" "yui").2
     (by decide)⟩

/-- C7 counterexample: in `dbC7` session `"s"` already ended at time 5;
calling `end_session` again at time 9 overwrites `ended_at` with 9 and hence
does change stored state — the claimed no-op on an already-ended session is
false. -/
theorem end_session_overwrites_cex :
    (DatabaseManager.lookupSession dbC7 "s").map (fun s => s.ended_at) =
        some (some 5) ∧
      (DatabaseManager.lookupSession (DatabaseManager.end_session dbC7 9 "s") "s").map
          (fun s => s.ended_at) = some (some 9) ∧
      DatabaseManager.end_session dbC7 9 "s" ≠ dbC7 :=
  ⟨by decide, by decide, by decide⟩

/-- C7 amended: `end_session` sets the matching session's `ended_at` to the
current time; on a non-existent session it is a no-op (no error, no state
change); on an already-ended session it raises no error but overwrites
`ended_at` with the current time rather than preserving it. -/
theorem end_session_amended (db : DB) (now : Nat) (sid : String) :
    (DatabaseManager.lookupSession db sid = none →
        DatabaseManager.end_session db now sid = db) ∧
      ∀ r, DatabaseManager.lookupSession db sid = some r →
        DatabaseManager.lookupSession (DatabaseManager.end_session db now sid) sid =
          some { r with ended_at := some now } := by
  constructor
  · intro h
    have hnone := List.find?_eq_none.mp h
    have hfun : ∀ s ∈ db.sessions,
        (if s.session_id == sid then { s with ended_at := some now } else s) = s := by
      intro s hs
      have hne : ¬s.session_id = sid := by simpa using hnone s hs
      simp [hne]
    unfold DatabaseManager.end_session
    rw [List.map_congr_left hfun]
    simp
  · intro r hr
    have hcomm := find?_sessionMap
      (f := fun s => if s.session_id == sid then { s with ended_at := some now } else s)
      (fun s => by dsimp only; split <;> rfl) db.sessions sid
    have hr2 : (db.sessions.find? fun s => s.session_id == sid) = some r := hr
    have hp0 := List.find?_some hr2
    have hp : (r.session_id == sid) = true := hp0
    unfold DatabaseManager.lookupSession DatabaseManager.end_session
    rw [hcomm]
    rw [hr2]
    simp [hp]
    exact fun hne => absurd (beq_iff_eq.mp hp) hne

/-- Witness for C7 amended: ending an unknown session leaves `dbC1` unchanged,
and ending session `"s"` stamps its `ended_at`. -/
theorem end_session_amended_witness :
    DatabaseManager.end_session dbC1 9 "nope" = dbC1 ∧
      DatabaseManager.lookupSession (DatabaseManager.end_session dbC1 9 "s") "s" =
        some { rowC1 with ended_at := some 9 } :=
  ⟨(end_session_amended dbC1 9 "nope").1 (by decide),
   (end_session_amended dbC1 9 "s").2 rowC1 (by decide)⟩

/-- C9: for a user whose sessions carry personalities [yui, yui, friday],
`get_stats` reports favorite_personality yui, session count 3, and the
message count equal to the user's number of conversation rows. -/
theorem get_stats_favorite_personality (db : DB) (u : String)
    (h : ((db.sessions.filter fun s => s.user_name == u).map fun s => s.personality) =
      ["yui", "yui", "friday"]) :
    (DatabaseManager.get_stats db u).favorite_personality = "yui" ∧
      (DatabaseManager.get_stats db u).total_sessions = 3 ∧
      (DatabaseManager.get_stats db u).total_messages =
        (db.conversations.filter fun c => c.user_name == u).length := by
  refine ⟨?_, ?_, rfl⟩
  · have hfav : (DatabaseManager.get_stats db u).favorite_personality =
        match DatabaseManager.topCount (DatabaseManager.personalityCounts
          ((db.sessions.filter fun s => s.user_name == u).map fun s => s.personality)) with
        | some pc => pc.1
        | none => "None" := rfl
    rw [hfav, h]
    decide
  · have hlen : (DatabaseManager.get_stats db u).total_sessions =
        (db.sessions.filter fun s => s.user_name == u).length := rfl
    rw [hlen]
    have := congrArg List.length h
    simpa using this

/-- Witness for C9: Alice's three sessions in `dbC9` have personalities
[yui, yui, friday] and `get_stats` behaves as claimed. -/
theorem get_stats_favorite_personality_witness :
    (DatabaseManager.get_stats dbC9 "Alice").favorite_personality = "yui" ∧
      (DatabaseManager.get_stats dbC9 "Alice").total_sessions = 3 ∧
      (DatabaseManager.get_stats dbC9 "Alice").total_messages =
        (dbC9.conversations.filter fun c => c.user_name == "Alice").length :=
  get_stats_favorite_personality dbC9 "Alice" (by decide)

/-- C10: saving a message under a session id with no `sessions` row succeeds,
inserts the `conversations` row, and leaves every `sessions` row (hence every
message counter) unchanged. -/
theorem save_message_orphan_session (db : DB) (now : Nat)
    (sid u p role content : String) (emotion : Option String)
    (h : ∀ s ∈ db.sessions, s.session_id ≠ sid) :
    (DatabaseManager.save_message db now sid u p role content emotion).sessions =
        db.sessions ∧
      (DatabaseManager.save_message db now sid u p role content emotion).conversations =
        db.conversations ++
          [{ id := db.next_conv_id, session_id := sid, user_name := u,
             personality := p, role := role, content := content, timestamp := now,
             emotion := emotion, created_at := now }] := by
  constructor
  · show (db.sessions.map fun s =>
        if s.session_id == sid then { s with message_count := s.message_count + 1 }
        else s) = db.sessions
    have hfun : ∀ s ∈ db.sessions,
        (if s.session_id == sid then { s with message_count := s.message_count + 1 }
          else s) = s := by
      intro s hs
      simp [h s hs]
    rw [List.map_congr_left hfun]
    simp
  · rfl

/-- Witness for C10: `dbC10` holds only session `"t"`; a save under the
unknown session `"s"` inserts the message and leaves `sessions` unchanged. -/
theorem save_message_orphan_session_witness :
    (DatabaseManager.save_message dbC10 4 "s" "u" "yui" "user" "hi" none).sessions =
        dbC10.sessions ∧
      (DatabaseManager.save_message dbC10 4 "s" "u" "yui" "user" "hi" none).conversations =
        dbC10.conversations ++
          [{ id := dbC10.next_conv_id, session_id := "s", user_name := "u",
             personality := "yui", role := "user", content := "hi", timestamp := 4,
             emotion := none, created_at := 4 }] :=
  save_message_orphan_session dbC10 4 "s" "u" "yui" "user" "hi" none (by decide)
